import Mathlib

/-!
Verification development for the IRIS gaze-tracking pipeline.

The Python sources are shallowly embedded: Python floats are modelled as
rationals (ℚ), integer counters as ℕ, mutable loop state as explicit state
records passed through per-frame step functions, and raising operations
(float division by zero, file reads, float parsing) as `Option`/`Except`
values.  Each definition mirrors one function or code block of the source,
cited by file and line in its doc comment.
-/

namespace EyeTracker

/-- Binary protocol type tags, eye_tracker.py lines 13-16. -/
def TYPE_GAZE : ℕ := 1

/-- eye_tracker.py line 14. -/
def TYPE_BLINK : ℕ := 2

/-- eye_tracker.py line 15. -/
def TYPE_STATUS : ℕ := 3

/-- eye_tracker.py line 16. -/
def TYPE_CALIBRATE : ℕ := 4

/-- Big-endian byte string of length `k` for the low `8*k` bits of `n`:
the byte-level meaning of struct's `!` (network) byte order. -/
def beBytes (k n : ℕ) : List ℕ :=
  (List.range k).reverse.map fun i => n / 256 ^ i % 256

/-- `struct.pack('!Bdd', tag, x, y)` at byte level: a float64 argument is
taken as its 64-bit IEEE-754 bit pattern (`xbits`, `ybits`), which `!d`
lays out as 8 big-endian bytes; `B` is one byte. -/
def packBdd (tag xbits ybits : ℕ) : List ℕ :=
  tag % 256 :: (beBytes 8 xbits ++ beBytes 8 ybits)

/-- `send_binary_gaze`, eye_tracker.py lines 20-25: the bytes written for a
gaze message whose coordinates have bit patterns `xbits`, `ybits`. -/
def send_binary_gaze (xbits ybits : ℕ) : List ℕ :=
  packBdd TYPE_GAZE xbits ybits

/-- `send_binary_blink`, eye_tracker.py lines 27-31. -/
def send_binary_blink (xbits ybits : ℕ) : List ℕ :=
  packBdd TYPE_BLINK xbits ybits

/-- Detector thresholds, eye_tracker.py lines 58-65.  `EYE_AR_THRESH = 0.25`. -/
def EYE_AR_THRESH : ℚ := 1/4

/-- eye_tracker.py line 59. -/
def EYE_AR_CONSEC_FRAMES : ℕ := 2

/-- eye_tracker.py line 65. -/
def LONG_BLINK_THRESH : ℕ := 8

/-- The per-frame landmark values the main loop reads (eye_tracker.py lines
103-120, 158-161): the four corner points per eye and nose.x / forehead.y. -/
structure Frame where
  lTopY : ℚ
  lBotY : ℚ
  lLeftX : ℚ
  lRightX : ℚ
  rTopY : ℚ
  rBotY : ℚ
  rLeftX : ℚ
  rRightX : ℚ
  noseX : ℚ
  foreheadY : ℚ
deriving DecidableEq

/-- Eye-aspect ratio with the guarded division of eye_tracker.py lines
110/120: `vert / horiz if horiz > 0 else 1.0`. -/
def earOf (vert horiz : ℚ) : ℚ :=
  if 0 < horiz then vert / horiz else 1

/-- Left-eye EAR, eye_tracker.py lines 108-110. -/
def leftEAR (f : Frame) : ℚ :=
  earOf |f.lTopY - f.lBotY| |f.lRightX - f.lLeftX|

/-- Right-eye EAR, eye_tracker.py lines 118-120. -/
def rightEAR (f : Frame) : ℚ :=
  earOf |f.rTopY - f.rBotY| |f.rRightX - f.rLeftX|

/-- `left_closed`, eye_tracker.py line 130. -/
def leftClosed (f : Frame) : Bool :=
  decide (leftEAR f < EYE_AR_THRESH)

/-- `right_closed`, eye_tracker.py line 131. -/
def rightClosed (f : Frame) : Bool :=
  decide (rightEAR f < EYE_AR_THRESH)

/-- `is_winking`, eye_tracker.py line 134: exactly one eye closed. -/
def isWinking (f : Frame) : Bool :=
  (leftClosed f && !rightClosed f) || (rightClosed f && !leftClosed f)

/-- The detector's mutable variables, eye_tracker.py lines 60-70. -/
structure DetState where
  blink_counter : ℕ
  is_blinking : Bool
  eyes_closed_counter : ℕ
  long_blink_triggered : Bool
deriving DecidableEq

/-- Reset detector state, eye_tracker.py lines 60-70 initial values. -/
def detReset : DetState :=
  { blink_counter := 0, is_blinking := false,
    eyes_closed_counter := 0, long_blink_triggered := false }

inductive Eye where
  | left
  | right
deriving DecidableEq

/-- The wink/blink state update of eye_tracker.py lines 127-155, returning
the new state and the eye of a fired one-shot wink event, if any. -/
def detUpdate (d : DetState) (f : Frame) : DetState × Option Eye :=
  let step :=
    if isWinking f then
      let ecc := d.eyes_closed_counter + 1
      let bc := d.blink_counter + 1
      if ecc = LONG_BLINK_THRESH && !d.long_blink_triggered then
        ({ d with eyes_closed_counter := ecc, blink_counter := bc,
                  long_blink_triggered := true },
         some (if leftClosed f then Eye.left else Eye.right))
      else
        ({ d with eyes_closed_counter := ecc, blink_counter := bc }, none)
    else
      ({ blink_counter := 0,
         is_blinking := if EYE_AR_CONSEC_FRAMES ≤ d.blink_counter then true
                        else d.is_blinking,
         eyes_closed_counter := 0,
         long_blink_triggered := false }, none)
  let d1 := step.1
  -- eye_tracker.py lines 154-155
  let d2 := if d1.is_blinking && d1.blink_counter = 0 then
              { d1 with is_blinking := false } else d1
  (d2, step.2)

/-- Axis-range parameters consumed by normalization: the four tracking-range
constants of eye_tracker.py lines 73-74 / the `cal` record of calibrate.py. -/
structure Profile where
  nose_x_min : ℚ
  nose_x_max : ℚ
  nose_y_min : ℚ
  nose_y_max : ℚ
deriving DecidableEq

/-- The fixed profile hard-coded in eye_tracker.py lines 73-74. -/
def fixedProfile : Profile :=
  { nose_x_min := 5174/10000, nose_x_max := 5967/10000,
    nose_y_min := 3542/10000, nose_y_max := 3910/10000 }

/-- Python float division: raises ZeroDivisionError on a zero denominator,
modelled as `none`. -/
def pyDiv (a b : ℚ) : Option ℚ :=
  if b = 0 then none else some (a / b)

/-- Main-loop mutable state, eye_tracker.py lines 54-70: cursor EMA,
nose EMA and the detector variables. -/
structure LoopState where
  det : DetState
  ema_x : ℚ
  ema_y : ℚ
  ema_nose_x : ℚ
  ema_nose_y : ℚ
deriving DecidableEq

/-- Initial loop state, eye_tracker.py lines 54-55: cursor at screen
center, nose EMA at (0.5, 0.5). -/
def initState (sw sh : ℚ) : LoopState :=
  { det := detReset, ema_x := sw/2, ema_y := sh/2,
    ema_nose_x := 1/2, ema_nose_y := 1/2 }

/-- Messages observable on the output channel per frame. -/
inductive Msg where
  | gaze (x y : ℚ)
  | blinkEvt (eye : Eye) (x y : ℚ)
deriving DecidableEq

/-- `max(0, min(1, v))`, eye_tracker.py lines 181-182. -/
def clamp01 (q : ℚ) : ℚ := max 0 (min 1 q)

/-- The messages emitted by the wink branch, eye_tracker.py line 146: a
blink event at the current cursor position when the one-shot fires. -/
def evtMsgs (evt : Option Eye) (x y : ℚ) : List Msg :=
  match evt with
  | some e => [Msg.blinkEvt e x y]
  | none => []

/-- Center deadzone, eye_tracker.py lines 175-179: values within 0.08 of
0.5 snap to exactly 0.5. -/
def deadzone (q : ℚ) : ℚ :=
  if |q - 1/2| < 2/25 then 1/2 else q

/-- Distance-gated cursor damping, eye_tracker.py lines 187-197: when the
cursor is more than 8px from the target (the source compares
`sqrt(dx²+dy²) > 8`, embedded as the equivalent `dx²+dy² > 64`), move 15%
of the way; otherwise snap to the target. -/
def damp (ex ey tx ty : ℚ) : ℚ × ℚ :=
  let dx := tx - ex
  let dy := ty - ey
  if 64 < dx * dx + dy * dy then (ex + dx * (3/20), ey + dy * (3/20))
  else (tx, ty)

/-- One iteration of the main loop body for a frame with a detected face,
eye_tracker.py lines 101-200.  `none` from `pyDiv` models the
ZeroDivisionError swallowed by the blanket `except` of line 202: local
variables mutated before the raise (the detector state and the nose EMA)
keep their new values, and no gaze is sent. -/
def faceStep (prof : Profile) (sw sh : ℚ) (s : LoopState) (f : Frame) :
    LoopState × List Msg :=
  let du := detUpdate s.det f
  let d := du.1
  let msgs := evtMsgs du.2 s.ema_x s.ema_y
  -- eye_tracker.py line 164: suppression gate
  if d.is_blinking || decide (0 < d.eyes_closed_counter) then
    ({ s with det := d }, msgs)
  else
    let enx := s.ema_nose_x + (f.noseX - s.ema_nose_x) * (1/10)
    let eny := s.ema_nose_y + (f.foreheadY - s.ema_nose_y) * (1/10)
    match pyDiv (enx - prof.nose_x_min) (prof.nose_x_max - prof.nose_x_min) with
    | none => ({ s with det := d, ema_nose_x := enx, ema_nose_y := eny }, msgs)
    | some h0 =>
      match pyDiv (eny - prof.nose_y_min) (prof.nose_y_max - prof.nose_y_min) with
      | none => ({ s with det := d, ema_nose_x := enx, ema_nose_y := eny }, msgs)
      | some v0 =>
        let h2 := clamp01 (deadzone h0)
        let v2 := clamp01 (deadzone v0)
        let c := damp s.ema_x s.ema_y (h2 * sw) (v2 * sh)
        ({ det := d, ema_nose_x := enx, ema_nose_y := eny,
           ema_x := c.1, ema_y := c.2 },
         msgs ++ [Msg.gaze c.1 c.2])

/-- One loop iteration: `none` is a frame with no detected face (or a failed
read), skipped at eye_tracker.py lines 87/97 with no state change. -/
def frameStep (prof : Profile) (sw sh : ℚ) (s : LoopState) (f : Option Frame) :
    LoopState × List Msg :=
  match f with
  | none => (s, [])
  | some fr => faceStep prof sw sh s fr

/-- Run the main loop over a list of frames, concatenating emitted messages. -/
def runLoop (prof : Profile) (sw sh : ℚ) (s : LoopState) :
    List (Option Frame) → LoopState × List Msg
  | [] => (s, [])
  | f :: rest =>
    let step := frameStep prof sw sh s f
    let tail := runLoop prof sw sh step.1 rest
    (tail.1, step.2 ++ tail.2)

/-- Normalization of the main tracker loop, eye_tracker.py line 171:
`h_norm = (ema_nose_x - nose_x_min) / (nose_x_max - nose_x_min)`
(no arithmetic inversion; the camera frame is mirrored by `cv2.flip`). -/
def trackerNormH (p : Profile) (emaX : ℚ) : ℚ :=
  (emaX - p.nose_x_min) / (p.nose_x_max - p.nose_x_min)

/-- Vertical normalization, eye_tracker.py line 172 (same formula in the
live-test path, calibrate.py line 829). -/
def trackerNormV (p : Profile) (emaY : ℚ) : ℚ :=
  (emaY - p.nose_y_min) / (p.nose_y_max - p.nose_y_min)

end EyeTracker

namespace Calibrate

open EyeTracker

/-- Insert into a sorted list, keeping order. -/
def insertSorted (x : ℚ) : List ℚ → List ℚ
  | [] => [x]
  | y :: ys => if x ≤ y then x :: y :: ys else y :: insertSorted x ys

/-- Sort a list of rationals ascending (the ordering `sorted` produces). -/
def sortQ : List ℚ → List ℚ
  | [] => []
  | x :: xs => insertSorted x (sortQ xs)

/-- Python `statistics.median`: sort; odd length takes the middle element,
even length averages the two middle elements; the empty list raises
StatisticsError, modelled as `none`. -/
def pyMedian (l : List ℚ) : Option ℚ :=
  match l with
  | [] => none
  | _ =>
    let s := sortQ l
    let n := s.length
    if n % 2 = 1 then some (s.getD (n / 2) 0)
    else some ((s.getD (n / 2 - 1) 0 + s.getD (n / 2) 0) / 2)

/-- Per-axis edge regression, calibrate.py lines 459-469 (X axis; lines
471-478 are the same for Y).  A target group is a list of targets, each a
list of that axis's raw sample values.  When both edge groups are
non-empty, the median is taken over the samples pooled across each group
(`median(s.raw_x for t in group for s in t.samples)`) and the range is the
min/max of the two group medians; otherwise the observed min/max over the
per-target medians (`all_raw_x`) is used.  `none` models the exceptions
`statistics.median`/`min` raise on empty data. -/
def edgeRange (lowTargets highTargets : List (List ℚ)) (allTargetMedians : List ℚ) :
    Option (ℚ × ℚ) :=
  if !lowTargets.isEmpty && !highTargets.isEmpty then
    match pyMedian lowTargets.flatten, pyMedian highTargets.flatten with
    | some mLow, some mHigh => some (min mLow mHigh, max mLow mHigh)
    | _, _ => none
  else
    match allTargetMedians.min?, allTargetMedians.max? with
    | some lo, some hi => some (lo, hi)
    | _, _ => none

/-- The medians-of-medians estimator the spec contrasts against ("not
medians-of-medians"): the median of the per-target medians of a group.
This definition follows the spec's words, for comparison with the pooled
median the code computes. -/
def mediansOfMedians (group : List (List ℚ)) : Option ℚ :=
  pyMedian (group.filterMap pyMedian)

/-- Symmetric 15%-per-side padding, calibrate.py lines 480-488:
`pad = span * 0.15; min -= pad; max += pad`. -/
def applyPadding (lo hi : ℚ) : ℚ × ℚ :=
  let pad := (hi - lo) * (15/100)
  (lo - pad, hi + pad)

/-- The calibration-result fields that `_apply_calibration` writes to the
calibration files, calibrate.py lines 617-624.  The guard at lines 613-615
(`if not r: return`) is the only condition: with a non-null result the four
range fields are persisted unconditionally, with no degeneracy check. -/
def applyCalibrationPersists (r : Option Profile) : Option (ℚ × ℚ × ℚ × ℚ) :=
  match r with
  | none => none
  | some c => some (c.nose_x_min, c.nose_x_max, c.nose_y_min, c.nose_y_max)

/-- Live-test horizontal normalization, calibrate.py line 828 (and line 710):
`h_norm = 1.0 - (ema_x - nose_x_min) / (nose_x_max - nose_x_min)` —
explicitly inverted. -/
def liveTestNormH (p : Profile) (emaX : ℚ) : ℚ :=
  1 - (emaX - p.nose_x_min) / (p.nose_x_max - p.nose_x_min)

/-- Live-test vertical normalization, calibrate.py line 829: not inverted. -/
def liveTestNormV (p : Profile) (emaY : ℚ) : ℚ :=
  (emaY - p.nose_y_min) / (p.nose_y_max - p.nose_y_min)

/-- Python exceptions relevant to `read_raw_nose`, calibrate.py line 106. -/
inductive PyErr where
  | fileNotFound
  | valueError
  | indexError
  | other
deriving DecidableEq

/-- A whitespace-separated field of the raw-nose file: either text parsing
to a float value or text on which `float()` raises ValueError. -/
inductive Field where
  | num (q : ℚ)
  | bad
deriving DecidableEq

/-- Python `float(fieldText)`: ValueError on a non-numeric field. -/
def pyFloat : Field → Except PyErr ℚ
  | .num q => .ok q
  | .bad => .error .valueError

/-- Body of `read_raw_nose`'s try block, calibrate.py lines 100-105.  The
input is `none` when the file is missing (`Path.read_text` raises
FileNotFoundError), otherwise the list of whitespace-split fields.
With ≥4 fields the first four are parsed; with 2-3 fields the first two
are parsed and the pair is duplicated; otherwise control falls through to
`return None`. -/
def read_raw_nose_body (file : Option (List Field)) :
    Except PyErr (Option (ℚ × ℚ × ℚ × ℚ)) :=
  match file with
  | none => .error .fileNotFound
  | some parts =>
    if 4 ≤ parts.length then do
      let a ← pyFloat (parts.getD 0 .bad)
      let b ← pyFloat (parts.getD 1 .bad)
      let c ← pyFloat (parts.getD 2 .bad)
      let d ← pyFloat (parts.getD 3 .bad)
      return some (a, b, c, d)
    else if 2 ≤ parts.length then do
      let a ← pyFloat (parts.getD 0 .bad)
      let b ← pyFloat (parts.getD 1 .bad)
      return some (a, b, a, b)
    else
      .ok none

/-- `read_raw_nose`, calibrate.py lines 97-108: the try body wrapped by
`except (FileNotFoundError, ValueError, IndexError): pass` followed by
`return None`.  Any other exception would propagate as `.error`. -/
def read_raw_nose (file : Option (List Field)) :
    Except PyErr (Option (ℚ × ℚ × ℚ × ℚ)) :=
  match read_raw_nose_body file with
  | .error .fileNotFound => .ok none
  | .error .valueError => .ok none
  | .error .indexError => .ok none
  | .error e => .error e
  | .ok r => .ok r

end Calibrate

namespace EyeTracker

/-- A frame whose landmarks give left EAR = 0.15 and right EAR = 0.35:
left eye closed, right eye open against the 0.25 threshold. -/
def winkF : Frame :=
  { lTopY := 3/20, lBotY := 0, lLeftX := 0, lRightX := 1,
    rTopY := 7/20, rBotY := 0, rLeftX := 0, rRightX := 1,
    noseX := 1/2, foreheadY := 1/2 }

/-- A frame with both EARs = 0.15: both eyes closed. -/
def bothClosedF : Frame :=
  { lTopY := 3/20, lBotY := 0, lLeftX := 0, lRightX := 1,
    rTopY := 3/20, rBotY := 0, rLeftX := 0, rRightX := 1,
    noseX := 1/2, foreheadY := 1/2 }

/-- Cursor state within the screen rectangle. -/
def cursorInBounds (sw sh : ℚ) (s : LoopState) : Prop :=
  0 ≤ s.ema_x ∧ s.ema_x ≤ sw ∧ 0 ≤ s.ema_y ∧ s.ema_y ≤ sh

/-- Whether a message is a discrete blink/wink event. -/
def isBlinkEvtMsg : Msg → Bool
  | Msg.blinkEvt _ _ _ => true
  | Msg.gaze _ _ => false

/-- A unit profile for concrete normalization inputs. -/
def unitProfile : Profile :=
  { nose_x_min := 0, nose_x_max := 1, nose_y_min := 0, nose_y_max := 1 }

/-- A profile degenerate on the horizontal axis: `axis_max == axis_min`. -/
def degenProfile : Profile :=
  { nose_x_min := 1/2, nose_x_max := 1/2, nose_y_min := 3/10, nose_y_max := 2/5 }

/-- A profile degenerate on the vertical axis only. -/
def degenProfileY : Profile :=
  { nose_x_min := 1/2, nose_x_max := 3/5, nose_y_min := 3/10, nose_y_max := 3/10 }

end EyeTracker

namespace Calibrate

/-- Spec regression example, left-edge group: one target with raw samples
[0.60, 0.61, 0.59]. -/
def exLeftGroup : List (List ℚ) := [[3/5, 61/100, 59/100]]

/-- Spec regression example, right-edge group: one target with raw samples
[0.52, 0.53, 0.51]. -/
def exRightGroup : List (List ℚ) := [[13/25, 53/100, 51/100]]

/-- The right-edge samples split across two targets, to separate the pooled
median from a median of per-target medians. -/
def exRightGroupSplit : List (List ℚ) := [[13/25, 53/100], [51/100]]

end Calibrate

section Theorems

open EyeTracker Calibrate

set_option maxRecDepth 8000
set_option maxHeartbeats 1000000

/-- The wink branch emits no gaze message. -/
lemma gaze_not_mem_evtMsgs (evt : Option Eye) (x y a b : ℚ) :
    Msg.gaze a b ∉ evtMsgs evt x y := by
  cases evt <;> simp [evtMsgs]

/-- C8: every coordinate-bearing message (gaze or blink) is serialized as
exactly 17 bytes — a 1-byte type tag (Gaze=1, Blink=2, Status=3,
Calibrate=4) followed by two 8-byte big-endian float64 payloads, x then y,
for every 64-bit value. -/
theorem binary_wire_framing :
    TYPE_GAZE = 1 ∧ TYPE_BLINK = 2 ∧ TYPE_STATUS = 3 ∧ TYPE_CALIBRATE = 4 ∧
    ∀ xbits ybits : ℕ,
      (send_binary_gaze xbits ybits).length = 17 ∧
      send_binary_gaze xbits ybits = TYPE_GAZE :: (beBytes 8 xbits ++ beBytes 8 ybits) ∧
      (send_binary_blink xbits ybits).length = 17 ∧
      send_binary_blink xbits ybits = TYPE_BLINK :: (beBytes 8 xbits ++ beBytes 8 ybits) ∧
      ∀ b ∈ beBytes 8 xbits, b < 256 := by
  refine ⟨rfl, rfl, rfl, rfl, fun xb yb => ⟨?_, rfl, ?_, rfl, ?_⟩⟩
  · simp [send_binary_gaze, packBdd, beBytes]
  · simp [send_binary_blink, packBdd, beBytes]
  · intro b hb
    simp [beBytes] at hb
    obtain ⟨i, _, hi⟩ := hb
    omega

/-- Witness for C8 at concrete payload bit patterns. -/
theorem binary_wire_framing_witness :
    (send_binary_gaze 0 0).length = 17 ∧ (send_binary_blink 0 0).length = 17 :=
  ⟨(binary_wire_framing.2.2.2.2 0 0).1, (binary_wire_framing.2.2.2.2 0 0).2.2.1⟩

/-- C6: the symmetric 15%-per-side padding multiplies the span by exactly
1.3 and expands both ends outward by the same amount. -/
theorem padding_law (lo hi : ℚ) (h : lo < hi) :
    (applyPadding lo hi).2 - (applyPadding lo hi).1 = (13/10) * (hi - lo) ∧
    lo - (applyPadding lo hi).1 = (15/100) * (hi - lo) ∧
    (applyPadding lo hi).2 - hi = (15/100) * (hi - lo) ∧
    (applyPadding lo hi).1 < lo ∧ hi < (applyPadding lo hi).2 := by
  simp only [applyPadding]
  refine ⟨by ring, by ring, by ring, ?_, ?_⟩ <;> nlinarith

/-- Witness for C6 on the pre-padding range [0, 1]. -/
theorem padding_law_witness :
    (0 : ℚ) < 1 ∧
    ((applyPadding 0 1).2 - (applyPadding 0 1).1 = (13/10) * (1 - 0) ∧
     (0:ℚ) - (applyPadding 0 1).1 = (15/100) * (1 - 0) ∧
     (applyPadding 0 1).2 - 1 = (15/100) * (1 - 0) ∧
     (applyPadding 0 1).1 < 0 ∧ (1:ℚ) < (applyPadding 0 1).2) :=
  ⟨by norm_num, padding_law 0 1 (by norm_num)⟩

/-- C1 counterexample: the main tracker's normalization (eye_tracker.py
line 171) is not inverted — on a profile with axis_x_min < axis_x_max,
raising the smoothed horizontal input from 0.3 to 0.6 raises, rather than
lowers, the normalized horizontal output. -/
theorem tracker_h_norm_not_inverted :
    unitProfile.nose_x_min < unitProfile.nose_x_max ∧ (3/10 : ℚ) < 6/10 ∧
    ¬ (trackerNormH unitProfile (6/10) < trackerNormH unitProfile (3/10)) ∧
    trackerNormH unitProfile (3/10) < trackerNormH unitProfile (6/10) := by
  norm_num [trackerNormH, unitProfile]

/-- C1 (amended): for every profile with axis_min < axis_max on both axes,
the main tracker's horizontal normalization is strictly increasing in the
raw smoothed input (mirroring is done by flipping the camera frame, not
arithmetically), the live-test/verification normalization
(norm_h = 1 - (ema - min)/(max - min), calibrate.py line 828) is strictly
decreasing, and vertical normalization is strictly increasing in both. -/
theorem normalization_monotonicity (p : Profile) (a b c d : ℚ)
    (hx : p.nose_x_min < p.nose_x_max) (hy : p.nose_y_min < p.nose_y_max)
    (hab : a < b) (hcd : c < d) :
    trackerNormH p a < trackerNormH p b ∧
    liveTestNormH p b < liveTestNormH p a ∧
    trackerNormV p c < trackerNormV p d ∧
    liveTestNormV p c < liveTestNormV p d := by
  have hdx : (0:ℚ) < p.nose_x_max - p.nose_x_min := by linarith
  have hdy : (0:ℚ) < p.nose_y_max - p.nose_y_min := by linarith
  have h1 : trackerNormH p a < trackerNormH p b := by
    unfold trackerNormH
    exact (div_lt_div_iff_of_pos_right hdx).mpr (by linarith)
  have h2 : trackerNormV p c < trackerNormV p d := by
    unfold trackerNormV
    exact (div_lt_div_iff_of_pos_right hdy).mpr (by linarith)
  refine ⟨h1, ?_, h2, h2⟩
  unfold liveTestNormH trackerNormH at *
  linarith

/-- Witness for the amended C1 on a unit profile. -/
theorem normalization_monotonicity_witness :
    (unitProfile.nose_x_min < unitProfile.nose_x_max ∧
     unitProfile.nose_y_min < unitProfile.nose_y_max ∧
     (3/10:ℚ) < 6/10 ∧ (1/5:ℚ) < 2/5) ∧
    (trackerNormH unitProfile (3/10) < trackerNormH unitProfile (6/10) ∧
     liveTestNormH unitProfile (6/10) < liveTestNormH unitProfile (3/10) ∧
     trackerNormV unitProfile (1/5) < trackerNormV unitProfile (2/5) ∧
     liveTestNormV unitProfile (1/5) < liveTestNormV unitProfile (2/5)) :=
  ⟨⟨by norm_num [unitProfile], by norm_num [unitProfile], by norm_num, by norm_num⟩,
   normalization_monotonicity unitProfile (3/10) (6/10) (1/5) (2/5)
     (by norm_num [unitProfile]) (by norm_num [unitProfile]) (by norm_num) (by norm_num)⟩

/-- C5 counterexample: on the spec's example — left-group raw samples
[0.60, 0.61, 0.59], right-group raw samples [0.52, 0.53, 0.51] — the code
yields pre-padding axis_min = 0.52 (the pooled median of the right group),
not ≈ 0.51 as the spec states. -/
theorem regression_example_axis_min_is_052 :
    edgeRange exLeftGroup exRightGroup [] = some (13/25, 3/5) ∧
    ¬ |(13/25 : ℚ) - 51/100| ≤ 1/200 := by
  constructor
  · norm_num [edgeRange, pyMedian, sortQ, insertSorted, exLeftGroup, exRightGroup]
  · rw [abs_of_nonneg (by norm_num : (0:ℚ) ≤ 13/25 - 51/100)]
    norm_num

/-- C5 (amended): per axis, with both edge groups non-empty, the algorithm
takes the median raw value pooled across all samples of each group (not a
median of per-target medians) and sets axis_min/axis_max to the min/max of
the two group medians; on the spec's example this yields pre-padding
axis_min = 0.52 and axis_max = 0.60 (same result when the right group is
split into two targets, where a median of per-target medians would give
0.5175 instead). -/
theorem regression_pooled_medians :
    edgeRange exLeftGroup exRightGroup [] = some (13/25, 3/5) ∧
    pyMedian exRightGroupSplit.flatten = some (13/25) ∧
    mediansOfMedians exRightGroupSplit = some (207/400) ∧
    (13/25 : ℚ) ≠ 207/400 ∧
    edgeRange exLeftGroup exRightGroupSplit [] = some (13/25, 3/5) := by
  refine ⟨?_, ?_, ?_, by norm_num, ?_⟩ <;>
    norm_num [edgeRange, pyMedian, mediansOfMedians, sortQ, insertSorted,
      List.filterMap_cons, exLeftGroup, exRightGroup, exRightGroupSplit]

/-- C2 counterexample: `_apply_calibration` persists a profile with
axis_x_min == axis_x_max; degenerate profiles are not rejected before
persistence. -/
theorem degenerate_profile_persisted :
    degenProfile.nose_x_min = degenProfile.nose_x_max ∧
    applyCalibrationPersists (some degenProfile) = some (1/2, 1/2, 3/10, 2/5) :=
  ⟨rfl, rfl⟩

/-- C2 (amended): with axis_max == axis_min on either axis the per-frame
normalization raises a ZeroDivisionError that the loop's blanket exception
handler swallows — the frame is silently skipped with the cursor state
unchanged and no gaze (and no NaN) emitted, with no explicit
invalid-calibration condition — and `_apply_calibration` persists the
degenerate profile unconditionally. -/
theorem degenerate_normalization_behavior (prof : Profile) (sw sh : ℚ)
    (s : LoopState) (f : Frame)
    (hdeg : prof.nose_x_max = prof.nose_x_min ∨ prof.nose_y_max = prof.nose_y_min) :
    (∀ x y, Msg.gaze x y ∉ (faceStep prof sw sh s f).2) ∧
    (faceStep prof sw sh s f).1.ema_x = s.ema_x ∧
    (faceStep prof sw sh s f).1.ema_y = s.ema_y ∧
    applyCalibrationPersists (some prof) =
      some (prof.nose_x_min, prof.nose_x_max, prof.nose_y_min, prof.nose_y_max) := by
  simp only [faceStep]
  by_cases hgate : ((detUpdate s.det f).1.is_blinking ||
      decide (0 < (detUpdate s.det f).1.eyes_closed_counter)) = true
  · simp only [hgate, if_true]
    exact ⟨fun x y => gaze_not_mem_evtMsgs _ _ _ _ _, by trivial, by trivial, rfl⟩
  · rw [if_neg (by simpa using hgate)]
    rcases hdeg with hdeg | hdeg
    · have hz : prof.nose_x_max - prof.nose_x_min = 0 := by rw [hdeg]; ring
      rw [hz]
      simp only [pyDiv, if_pos rfl]
      exact ⟨fun x y => gaze_not_mem_evtMsgs _ _ _ _ _, by trivial, by trivial, rfl⟩
    · have hz : prof.nose_y_max - prof.nose_y_min = 0 := by rw [hdeg]; ring
      rw [hz]
      split
      next heq0 =>
        exact ⟨fun x y => gaze_not_mem_evtMsgs _ _ _ _ _, by trivial, by trivial, rfl⟩
      next h0 heq0 =>
        simp only [pyDiv, if_pos rfl]
        exact ⟨fun x y => gaze_not_mem_evtMsgs _ _ _ _ _, by trivial, by trivial, rfl⟩

/-- Witness for the amended C2, exercising both an x-degenerate and a
y-only-degenerate profile. -/
theorem degenerate_normalization_behavior_witness :
    ((degenProfile.nose_x_max = degenProfile.nose_x_min ∨
      degenProfile.nose_y_max = degenProfile.nose_y_min) ∧
     (∀ x y, Msg.gaze x y ∉ (faceStep degenProfile 1440 900 (initState 1440 900) winkF).2) ∧
     (faceStep degenProfile 1440 900 (initState 1440 900) winkF).1.ema_x =
       (initState 1440 900).ema_x ∧
     (faceStep degenProfile 1440 900 (initState 1440 900) winkF).1.ema_y =
       (initState 1440 900).ema_y ∧
     applyCalibrationPersists (some degenProfile) =
       some (degenProfile.nose_x_min, degenProfile.nose_x_max,
             degenProfile.nose_y_min, degenProfile.nose_y_max)) ∧
    ((degenProfileY.nose_x_max = degenProfileY.nose_x_min ∨
      degenProfileY.nose_y_max = degenProfileY.nose_y_min) ∧
     (∀ x y, Msg.gaze x y ∉ (faceStep degenProfileY 1440 900 (initState 1440 900) winkF).2) ∧
     (faceStep degenProfileY 1440 900 (initState 1440 900) winkF).1.ema_x =
       (initState 1440 900).ema_x ∧
     (faceStep degenProfileY 1440 900 (initState 1440 900) winkF).1.ema_y =
       (initState 1440 900).ema_y ∧
     applyCalibrationPersists (some degenProfileY) =
       some (degenProfileY.nose_x_min, degenProfileY.nose_x_max,
             degenProfileY.nose_y_min, degenProfileY.nose_y_max)) :=
  ⟨⟨Or.inl rfl,
    degenerate_normalization_behavior degenProfile 1440 900 (initState 1440 900) winkF
      (Or.inl rfl)⟩,
   ⟨Or.inr rfl,
    degenerate_normalization_behavior degenProfileY 1440 900 (initState 1440 900) winkF
      (Or.inr rfl)⟩⟩

/-- C7: on any frame whose wink/blink update leaves the eyes-closed counter
positive (or a blink in progress), the stabilizer state — cursor EMA and
nose EMA — is left exactly unchanged and no gaze coordinate is emitted. -/
theorem closure_suppression_preserves_state (prof : Profile) (sw sh : ℚ)
    (s : LoopState) (f : Frame)
    (h : (detUpdate s.det f).1.is_blinking = true ∨
         0 < (detUpdate s.det f).1.eyes_closed_counter) :
    (faceStep prof sw sh s f).1.ema_x = s.ema_x ∧
    (faceStep prof sw sh s f).1.ema_y = s.ema_y ∧
    (faceStep prof sw sh s f).1.ema_nose_x = s.ema_nose_x ∧
    (faceStep prof sw sh s f).1.ema_nose_y = s.ema_nose_y ∧
    ∀ x y, Msg.gaze x y ∉ (faceStep prof sw sh s f).2 := by
  have hgate : ((detUpdate s.det f).1.is_blinking ||
      decide (0 < (detUpdate s.det f).1.eyes_closed_counter)) = true := by
    rcases h with h | h
    · simp [h]
    · simp [h]
  unfold faceStep
  simp only [hgate, if_true]
  exact ⟨by trivial, by trivial, by trivial, by trivial,
    fun x y => gaze_not_mem_evtMsgs _ _ _ _ _⟩

/-- Witness for C7 on a wink frame from the reset state. -/
theorem closure_suppression_witness :
    ((detUpdate (initState 1440 900).det winkF).1.is_blinking = true ∨
     0 < (detUpdate (initState 1440 900).det winkF).1.eyes_closed_counter) ∧
    ((faceStep fixedProfile 1440 900 (initState 1440 900) winkF).1.ema_x =
       (initState 1440 900).ema_x ∧
     (faceStep fixedProfile 1440 900 (initState 1440 900) winkF).1.ema_y =
       (initState 1440 900).ema_y ∧
     (faceStep fixedProfile 1440 900 (initState 1440 900) winkF).1.ema_nose_x =
       (initState 1440 900).ema_nose_x ∧
     (faceStep fixedProfile 1440 900 (initState 1440 900) winkF).1.ema_nose_y =
       (initState 1440 900).ema_nose_y ∧
     ∀ x y, Msg.gaze x y ∉ (faceStep fixedProfile 1440 900 (initState 1440 900) winkF).2) :=
  have h : (detUpdate (initState 1440 900).det winkF).1.is_blinking = true ∨
      0 < (detUpdate (initState 1440 900).det winkF).1.eyes_closed_counter := by
    right
    norm_num [detUpdate, initState, detReset, isWinking, leftClosed, rightClosed,
      leftEAR, rightEAR, earOf, EYE_AR_THRESH, LONG_BLINK_THRESH, EYE_AR_CONSEC_FRAMES,
      winkF, abs_of_nonneg]
  ⟨h, closure_suppression_preserves_state fixedProfile 1440 900 (initState 1440 900) winkF h⟩

/-- C3: from the reset detector state, with hold threshold 8, eight
consecutive frames with left EAR = 0.15 and right EAR = 0.35 produce
exactly one wink event, tagged left, emitted on frame 8 (at the initial
cursor position), and zero events on frames 1 through 7. -/
theorem wink_fires_once_on_frame8 :
    leftEAR winkF = 3/20 ∧ rightEAR winkF = 7/20 ∧ LONG_BLINK_THRESH = 8 ∧
    (runLoop fixedProfile 1440 900 (initState 1440 900)
      (List.replicate 7 (some winkF))).2 = [] ∧
    (runLoop fixedProfile 1440 900 (initState 1440 900)
      (List.replicate 8 (some winkF))).2 = [Msg.blinkEvt Eye.left 720 450] := by
  refine ⟨?_, ?_, rfl, ?_, ?_⟩ <;>
    norm_num [runLoop, frameStep, faceStep, detUpdate, isWinking, leftClosed,
      rightClosed, leftEAR, rightEAR, earOf, EYE_AR_THRESH, LONG_BLINK_THRESH,
      EYE_AR_CONSEC_FRAMES, winkF, fixedProfile, initState, detReset, pyDiv,
      clamp01, deadzone, damp, evtMsgs, abs_neg, abs_of_nonneg, abs_of_nonpos,
      List.replicate]

/-- C4 counterexample: after a wink event fires on 8 wink frames, a single
frame with BOTH eyes closed (no frame with both eyes open occurs anywhere
in the sequence) re-arms the trigger, and 8 further wink frames fire a
second wink event. -/
theorem wink_rearms_on_both_closed :
    leftClosed bothClosedF = true ∧ rightClosed bothClosedF = true ∧
    leftClosed winkF = true ∧ rightClosed winkF = false ∧
    ((runLoop fixedProfile 1440 900 (initState 1440 900)
        (List.replicate 8 (some winkF) ++ [some bothClosedF] ++
         List.replicate 8 (some winkF))).2.filter isBlinkEvtMsg) =
      [Msg.blinkEvt Eye.left 720 450, Msg.blinkEvt Eye.left 612 (1035/2)] := by
  refine ⟨?_, ?_, ?_, ?_, ?_⟩ <;>
    norm_num [runLoop, frameStep, faceStep, detUpdate, isWinking, leftClosed,
      rightClosed, leftEAR, rightEAR, earOf, EYE_AR_THRESH, LONG_BLINK_THRESH,
      EYE_AR_CONSEC_FRAMES, winkF, bothClosedF, fixedProfile, initState, detReset,
      pyDiv, clamp01, deadzone, damp, evtMsgs, isBlinkEvtMsg, abs_neg,
      abs_of_nonneg, abs_of_nonpos, List.replicate, List.filter]

/-- A winking frame with the trigger latched keeps it latched and emits
nothing. -/
lemma faceStep_winking_triggered (prof : Profile) (sw sh : ℚ) (s : LoopState)
    (f : Frame) (hw : isWinking f = true)
    (ht : s.det.long_blink_triggered = true) :
    (faceStep prof sw sh s f).1.det.long_blink_triggered = true ∧
    (faceStep prof sw sh s f).2 = [] := by
  have hdet : detUpdate s.det f =
      ({ s.det with eyes_closed_counter := s.det.eyes_closed_counter + 1,
                    blink_counter := s.det.blink_counter + 1 }, none) := by
    simp [detUpdate, hw, ht]
  unfold faceStep
  rw [hdet]
  simp [evtMsgs, ht]

/-- With the trigger latched, a run of winking-only frames emits nothing. -/
lemma runLoop_winking_no_msgs (prof : Profile) (sw sh : ℚ) :
    ∀ (fs : List Frame) (s : LoopState), s.det.long_blink_triggered = true →
      (∀ f ∈ fs, isWinking f = true) →
      (runLoop prof sw sh s (fs.map some)).2 = [] := by
  intro fs
  induction fs with
  | nil =>
    intro s _ _
    simp [runLoop]
  | cons f rest ih =>
    intro s ht hw
    have hw1 : isWinking f = true := hw f (List.mem_cons_self f rest)
    obtain ⟨h1, h2⟩ := faceStep_winking_triggered prof sw sh s f hw1 ht
    simp only [List.map_cons, runLoop, frameStep]
    rw [h2]
    simp only [List.nil_append]
    exact ih _ h1 (fun g hg => hw g (List.mem_cons_of_mem f hg))

/-- C4 (amended): after a wink event has fired, no further event can fire
while every subsequent frame is a winking frame (exactly one eye closed);
the trigger re-arms on any frame that is not a winking frame — including a
frame with both eyes closed — not only on a both-eyes-open frame. -/
theorem wink_no_refire_while_winking (prof : Profile) (sw sh : ℚ) (s : LoopState)
    (ht : s.det.long_blink_triggered = true) (fs : List Frame)
    (hw : ∀ f ∈ fs, isWinking f = true) :
    (runLoop prof sw sh s (fs.map some)).2 = [] ∧
    ∀ d : DetState, ∀ f : Frame, isWinking f = false →
      (detUpdate d f).1.long_blink_triggered = false := by
  refine ⟨runLoop_winking_no_msgs prof sw sh fs s ht hw, ?_⟩
  intro d f hnw
  simp [detUpdate, hnw]
  split <;> rfl

/-- Witness for the amended C4: a latched state fed one wink frame. -/
theorem wink_no_refire_while_winking_witness :
    (({ det := { blink_counter := 8, is_blinking := false, eyes_closed_counter := 8,
                 long_blink_triggered := true },
        ema_x := 720, ema_y := 450, ema_nose_x := 1/2,
        ema_nose_y := 1/2 } : LoopState).det.long_blink_triggered = true ∧
     (∀ f ∈ [winkF], isWinking f = true)) ∧
    ((runLoop fixedProfile 1440 900
        { det := { blink_counter := 8, is_blinking := false, eyes_closed_counter := 8,
                   long_blink_triggered := true },
          ema_x := 720, ema_y := 450, ema_nose_x := 1/2, ema_nose_y := 1/2 }
        ([winkF].map some)).2 = [] ∧
     ∀ d : DetState, ∀ f : Frame, isWinking f = false →
       (detUpdate d f).1.long_blink_triggered = false) :=
  have hw : ∀ f ∈ [winkF], isWinking f = true := by
    intro f hf
    simp only [List.mem_singleton] at hf
    subst hf
    norm_num [isWinking, leftClosed, rightClosed, leftEAR, rightEAR, earOf,
      EYE_AR_THRESH, winkF, abs_of_nonneg]
  ⟨⟨rfl, hw⟩, wink_no_refire_while_winking fixedProfile 1440 900 _ rfl [winkF] hw⟩

lemma clamp01_nonneg (q : ℚ) : 0 ≤ clamp01 q := le_max_left 0 _

lemma clamp01_le_one (q : ℚ) : clamp01 q ≤ 1 :=
  max_le (by norm_num) (min_le_left 1 q)

/-- A clamped normalized value scaled by a nonnegative screen dimension
stays within the screen. -/
lemma target_bounds {sw : ℚ} (hsw : 0 ≤ sw) (q : ℚ) :
    0 ≤ clamp01 q * sw ∧ clamp01 q * sw ≤ sw := by
  have h1 := clamp01_nonneg q
  have h2 := clamp01_le_one q
  constructor
  · exact mul_nonneg h1 hsw
  · nlinarith

/-- Both damping branches keep the cursor between the old position and the
in-bounds target. -/
lemma damp_bounds {sw sh ex ey tx ty : ℚ}
    (hex : 0 ≤ ex) (hex2 : ex ≤ sw) (htx : 0 ≤ tx) (htx2 : tx ≤ sw)
    (hey : 0 ≤ ey) (hey2 : ey ≤ sh) (hty : 0 ≤ ty) (hty2 : ty ≤ sh) :
    (0 ≤ (damp ex ey tx ty).1 ∧ (damp ex ey tx ty).1 ≤ sw) ∧
    (0 ≤ (damp ex ey tx ty).2 ∧ (damp ex ey tx ty).2 ≤ sh) := by
  simp only [damp]
  split <;> refine ⟨⟨?_, ?_⟩, ?_, ?_⟩ <;> dsimp only <;> nlinarith

/-- One frame preserves the cursor-bounds invariant, and any gaze it emits
is within the screen. -/
lemma faceStep_bounds (prof : Profile) (sw sh : ℚ) (s : LoopState) (f : Frame)
    (hsw : 0 ≤ sw) (hsh : 0 ≤ sh) (hs : cursorInBounds sw sh s) :
    cursorInBounds sw sh (faceStep prof sw sh s f).1 ∧
    ∀ x y, Msg.gaze x y ∈ (faceStep prof sw sh s f).2 →
      0 ≤ x ∧ x ≤ sw ∧ 0 ≤ y ∧ y ≤ sh := by
  obtain ⟨h1, h2, h3, h4⟩ := hs
  simp only [faceStep]
  by_cases hgate : ((detUpdate s.det f).1.is_blinking ||
      decide (0 < (detUpdate s.det f).1.eyes_closed_counter)) = true
  · simp only [hgate, if_true]
    exact ⟨⟨h1, h2, h3, h4⟩, fun x y hx => absurd hx (gaze_not_mem_evtMsgs _ _ _ _ _)⟩
  · rw [if_neg (by simpa using hgate)]
    split
    next heq0 =>
      exact ⟨⟨h1, h2, h3, h4⟩, fun x y hx => absurd hx (gaze_not_mem_evtMsgs _ _ _ _ _)⟩
    next h0 heq0 =>
      split
      next heq1 =>
        exact ⟨⟨h1, h2, h3, h4⟩, fun x y hx => absurd hx (gaze_not_mem_evtMsgs _ _ _ _ _)⟩
      next v0 heq1 =>
        obtain ⟨htx, htx2⟩ := target_bounds hsw (deadzone h0)
        obtain ⟨hty, hty2⟩ := target_bounds hsh (deadzone v0)
        obtain ⟨⟨b1, b2⟩, b3, b4⟩ := damp_bounds h1 h2 htx htx2 h3 h4 hty hty2
        refine ⟨⟨b1, b2, b3, b4⟩, ?_⟩
        intro x y hx
        rcases List.mem_append.mp hx with hx | hx
        · exact absurd hx (gaze_not_mem_evtMsgs _ _ _ _ _)
        · simp only [List.mem_singleton] at hx
          cases hx
          exact ⟨b1, b2, b3, b4⟩

/-- The invariant and gaze bounds extend over any run of the loop. -/
lemma runLoop_bounds (prof : Profile) (sw sh : ℚ) (hsw : 0 ≤ sw) (hsh : 0 ≤ sh) :
    ∀ (fs : List (Option Frame)) (s : LoopState), cursorInBounds sw sh s →
      cursorInBounds sw sh (runLoop prof sw sh s fs).1 ∧
      ∀ x y, Msg.gaze x y ∈ (runLoop prof sw sh s fs).2 →
        0 ≤ x ∧ x ≤ sw ∧ 0 ≤ y ∧ y ≤ sh := by
  intro fs
  induction fs with
  | nil =>
    intro s hs
    exact ⟨hs, by simp [runLoop]⟩
  | cons f rest ih =>
    intro s hs
    have hstep : cursorInBounds sw sh (frameStep prof sw sh s f).1 ∧
        ∀ x y, Msg.gaze x y ∈ (frameStep prof sw sh s f).2 →
          0 ≤ x ∧ x ≤ sw ∧ 0 ≤ y ∧ y ≤ sh := by
      cases f with
      | none => exact ⟨hs, by simp [frameStep]⟩
      | some fr => exact faceStep_bounds prof sw sh s fr hsw hsh hs
    obtain ⟨ih1, ih2⟩ := ih (frameStep prof sw sh s f).1 hstep.1
    constructor
    · simpa only [runLoop] using ih1
    · intro x y hx
      simp only [runLoop, List.mem_append] at hx
      rcases hx with hx | hx
      · exact hstep.2 x y hx
      · exact ih2 x y hx

/-- C9: starting from the screen center, the cursor state satisfies
0 ≤ ema_x ≤ screen_width and 0 ≤ ema_y ≤ screen_height before and after
every frame, and every emitted gaze coordinate lies within the screen
rectangle. -/
theorem cursor_stays_in_screen (prof : Profile) (sw sh : ℚ)
    (fs : List (Option Frame)) (hsw : 0 ≤ sw) (hsh : 0 ≤ sh) :
    cursorInBounds sw sh (initState sw sh) ∧
    cursorInBounds sw sh (runLoop prof sw sh (initState sw sh) fs).1 ∧
    ∀ x y, Msg.gaze x y ∈ (runLoop prof sw sh (initState sw sh) fs).2 →
      0 ≤ x ∧ x ≤ sw ∧ 0 ≤ y ∧ y ≤ sh := by
  have hinit : cursorInBounds sw sh (initState sw sh) := by
    unfold cursorInBounds initState
    exact ⟨by linarith, by linarith, by linarith, by linarith⟩
  obtain ⟨a, b⟩ := runLoop_bounds prof sw sh hsw hsh fs _ hinit
  exact ⟨hinit, a, b⟩

/-- Witness for C9 on a concrete 1440×900 screen and a short frame list. -/
theorem cursor_stays_in_screen_witness :
    ((0:ℚ) ≤ 1440 ∧ (0:ℚ) ≤ 900) ∧
    (cursorInBounds 1440 900 (initState 1440 900) ∧
     cursorInBounds 1440 900
       (runLoop fixedProfile 1440 900 (initState 1440 900) [some winkF, none]).1 ∧
     ∀ x y, Msg.gaze x y ∈
         (runLoop fixedProfile 1440 900 (initState 1440 900) [some winkF, none]).2 →
       0 ≤ x ∧ x ≤ 1440 ∧ 0 ≤ y ∧ y ≤ 900) :=
  ⟨⟨by norm_num, by norm_num⟩,
   cursor_stays_in_screen fixedProfile 1440 900 [some winkF, none]
     (by norm_num) (by norm_num)⟩

lemma ok_bind {e a b : Type} (x : a) (f : a → Except e b) :
    (Except.ok x >>= f) = f x := rfl

lemma error_bind {e a b : Type} (err : e) (f : a → Except e b) :
    ((Except.error err : Except e a) >>= f) = Except.error err := rfl

/-- The try body of `read_raw_nose` either returns, or raises only
FileNotFoundError or ValueError — both of which the except clause lists. -/
lemma read_raw_nose_body_cases (file : Option (List Field)) :
    (∃ r, read_raw_nose_body file = Except.ok r) ∨
    read_raw_nose_body file = Except.error PyErr.fileNotFound ∨
    read_raw_nose_body file = Except.error PyErr.valueError := by
  cases file with
  | none => exact Or.inr (Or.inl rfl)
  | some parts =>
    simp only [read_raw_nose_body]
    split
    · rcases hA : parts.getD 0 Field.bad with qa | _ <;>
      rcases hB : parts.getD 1 Field.bad with qb | _ <;>
      rcases hC : parts.getD 2 Field.bad with qc | _ <;>
      rcases hD : parts.getD 3 Field.bad with qd | _ <;>
        simp [pyFloat, hA, hB, hC, hD, ok_bind, error_bind]
    · split
      · rcases hA : parts.getD 0 Field.bad with qa | _ <;>
        rcases hB : parts.getD 1 Field.bad with qb | _ <;>
          simp [pyFloat, hA, hB, ok_bind, error_bind]
      · exact Or.inl ⟨none, rfl⟩

/-- C10: `read_raw_nose` never raises; a missing file, a parsed non-numeric
field, or fewer than two fields yield None; four or more fields with the
first four numeric yield that quadruple; exactly two or three fields with
the first two numeric yield the raw pair duplicated as the smoothed pair. -/
theorem read_raw_nose_total_spec :
    (∀ file, ∃ r, read_raw_nose file = Except.ok r) ∧
    read_raw_nose none = Except.ok none ∧
    (∀ parts : List Field, parts.length < 2 →
      read_raw_nose (some parts) = Except.ok none) ∧
    (∀ a b c d : ℚ, ∀ rest : List Field,
      read_raw_nose (some (Field.num a :: Field.num b :: Field.num c ::
        Field.num d :: rest)) = Except.ok (some (a, b, c, d))) ∧
    (∀ a b : ℚ,
      read_raw_nose (some [Field.num a, Field.num b]) = Except.ok (some (a, b, a, b))) ∧
    (∀ a b : ℚ, ∀ g : Field,
      read_raw_nose (some [Field.num a, Field.num b, g]) = Except.ok (some (a, b, a, b))) ∧
    (∀ rest : List Field, read_raw_nose (some (Field.bad :: rest)) = Except.ok none) ∧
    (∀ a : ℚ, ∀ rest : List Field,
      read_raw_nose (some (Field.num a :: Field.bad :: rest)) = Except.ok none) ∧
    (∀ a b : ℚ, ∀ g rest,
      read_raw_nose (some (Field.num a :: Field.num b :: Field.bad :: g :: rest)) =
        Except.ok none) ∧
    (∀ a b : ℚ, ∀ g : Field, ∀ rest,
      read_raw_nose (some (Field.num a :: Field.num b :: g :: Field.bad :: rest)) =
        Except.ok none) := by
  refine ⟨?_, rfl, ?_, ?_, ?_, ?_, ?_, ?_, ?_, ?_⟩
  · intro file
    rcases read_raw_nose_body_cases file with ⟨r, h⟩ | h | h
    · exact ⟨r, by simp [read_raw_nose, h]⟩
    · exact ⟨none, by simp [read_raw_nose, h]⟩
    · exact ⟨none, by simp [read_raw_nose, h]⟩
  · intro parts h
    have h4 : ¬ 4 ≤ parts.length := by omega
    have h2 : ¬ 2 ≤ parts.length := by omega
    simp [read_raw_nose, read_raw_nose_body, h4, h2]
  · intro a b c d rest
    have h4 : 4 ≤ (Field.num a :: Field.num b :: Field.num c ::
        Field.num d :: rest).length := by simp
    simp [read_raw_nose, read_raw_nose_body, h4, pyFloat, ok_bind, error_bind]
  · intro a b
    simp [read_raw_nose, read_raw_nose_body, pyFloat, ok_bind, error_bind]
  · intro a b g
    simp [read_raw_nose, read_raw_nose_body, pyFloat, ok_bind, error_bind]
  · intro rest
    simp only [read_raw_nose, read_raw_nose_body, pyFloat, ok_bind, error_bind]
    split_ifs <;> rfl
  · intro a rest
    simp only [read_raw_nose, read_raw_nose_body, pyFloat, ok_bind, error_bind]
    split_ifs <;> simp [List.getD, ok_bind, error_bind, pyFloat]
  · intro a b g rest
    have h4 : 4 ≤ (Field.num a :: Field.num b :: Field.bad :: g :: rest).length := by
      simp
    simp [read_raw_nose, read_raw_nose_body, h4, pyFloat, ok_bind, error_bind]
  · intro a b g rest
    have h4 : 4 ≤ (Field.num a :: Field.num b :: g :: Field.bad :: rest).length := by
      simp
    cases g <;>
      simp [read_raw_nose, read_raw_nose_body, h4, pyFloat, ok_bind, error_bind]

/-- Witness for C10 at concrete records. -/
theorem read_raw_nose_total_spec_witness :
    (([Field.bad].length < 2) ∧ read_raw_nose (some [Field.bad]) = Except.ok none) ∧
    read_raw_nose (some [Field.num 1, Field.num 2]) = Except.ok (some (1, 2, 1, 2)) :=
  ⟨⟨by norm_num, read_raw_nose_total_spec.2.2.1 [Field.bad] (by norm_num)⟩,
   read_raw_nose_total_spec.2.2.2.2.1 1 2⟩

end Theorems
